import Mathlib

/-!
# OpenStreamKit — verification of the specification against the source

This file shallowly embeds the behaviourally relevant parts of the
OpenStreamKit repository (src/app.py, src/kick.py) in Lean 4 and settles the
frozen claims about it.

Modelling conventions:

* JSON values and Python objects flowing through the webhook and OAuth paths
  are modelled by the inductive type JValue.  A decoded JSON object (a Python
  dict) is an association list of string keys; lookup finds the first match,
  matching dict semantics since keys are unique.
* Python exceptions are modelled by the Except monad with the error type
  PyError.  A route that lets an exception escape is modelled as returning
  Except.error, which the surrounding web framework turns into a 500
  response, never into the ok acknowledgement.
* Machine integers do not occur: every number in the modelled code paths is a
  Python int (arbitrary precision) or a JSON number.  The SHA-256 embedding
  uses Nat with explicit reduction modulo 2 ^ 32.
* Network calls are modelled by passing the response (or the network-level
  failure) as an explicit argument; file writes are modelled as fields of an
  explicit application state record.  Log lines and debug-mode payload dumps
  are side effects with no influence on any claim and are not modelled.
-/

/-- Python exceptions that the modelled code paths can raise. -/
inductive PyError where
  /-- Raised when calling a missing attribute, e.g. the method get on a
  value that is not a dict. -/
  | attributeError
  /-- Raised by operations applied to operands of the wrong type, e.g. the
  membership test on a number. -/
  | typeError
  /-- Raised by subscripting a dict with a missing key. -/
  | keyError
  /-- Raised by the json module when parsing malformed text, and by the
  requests response method json on a malformed body. -/
  | jsonDecodeError
  deriving DecidableEq

/-- Decoded JSON values, the payloads flowing through the webhook and OAuth
paths.  Objects keep their fields as an association list. -/
inductive JValue where
  | null : JValue
  | bool (b : Bool) : JValue
  | num (n : Int) : JValue
  | str (s : String) : JValue
  | arr (xs : List JValue) : JValue
  | obj (fields : List (String × JValue)) : JValue

/-- A decoded JSON object body, as handed to a route by the web framework. -/
def Payload : Type := List (String × JValue)

/-- Lookup of a key in a decoded object, first match wins. -/
def dlookup (p : List (String × JValue)) (k : String) : Option JValue :=
  List.lookup k p

/-- Membership test of the Python expression k in payload, for a dict. -/
def hasKey (p : List (String × JValue)) (k : String) : Bool :=
  p.any (fun q => q.1 == k)

/-- Model of payload.get(k, dflt) on a dict: total, returns the default when
the key is missing. -/
def dictGet (p : List (String × JValue)) (k : String) (dflt : JValue) : JValue :=
  (dlookup p k).getD dflt

/-- Model of v.get(k, dflt) on an arbitrary value: a dict answers like
dictGet, any other value raises AttributeError because it has no get
method. -/
def jGet (v : JValue) (k : String) (dflt : JValue) : Except PyError JValue :=
  match v with
  | JValue.obj fs => Except.ok (dictGet fs k dflt)
  | _ => Except.error PyError.attributeError

/-- Embedding of handle_chat_message from src/app.py: extracts the pair of
values interpolated into the CHAT log line.  The log emission itself and the
debug-mode dump are effect-free with respect to every claim. -/
def handle_chat_message (payload : Payload) : Except PyError (JValue × JValue) := do
  let sender ← jGet (dictGet payload "sender" (JValue.obj [])) "username" (JValue.str "unknown")
  let content := dictGet payload "content" (JValue.str "")
  Except.ok (sender, content)

/-- Embedding of handle_follow from src/app.py: extracts the value
interpolated into the FOLLOW log line. -/
def handle_follow (payload : Payload) : Except PyError JValue :=
  jGet (dictGet payload "follower" (JValue.obj [])) "username" (JValue.str "unknown")

/-- The success acknowledgement body returned by the webhook route. -/
def okBody : JValue := JValue.obj [("ok", JValue.bool true)]

/-- Embedding of the kick_webhook route of src/app.py.  An escaping handler
exception is an Except.error, which the framework renders as an error
status, not as the acknowledgement. -/
def kick_webhook (payload : Payload) : Except PyError JValue :=
  if hasKey payload "message_id" && hasKey payload "sender" && hasKey payload "content" then
    match handle_chat_message payload with
    | Except.ok _ => Except.ok okBody
    | Except.error e => Except.error e
  else if hasKey payload "follower" then
    match handle_follow payload with
    | Except.ok _ => Except.ok okBody
    | Except.error e => Except.error e
  else
    Except.ok okBody

/-- Classification outcomes of an inbound webhook payload. -/
inductive EventClass where
  | chat : EventClass
  | follow : EventClass
  | unknown : EventClass
  deriving DecidableEq

/-- The classifier implicit in the branch structure of kick_webhook: the
chat shape is tested first, then the follow shape, else unknown. -/
def classify (payload : Payload) : EventClass :=
  if hasKey payload "message_id" && hasKey payload "sender" && hasKey payload "content" then
    EventClass.chat
  else if hasKey payload "follower" then
    EventClass.follow
  else
    EventClass.unknown

/-- Checks that a key, when present at all, maps to a JSON object.  The
handlers call the method get on the value of sender or follower, which only a
dict supports. -/
def objIfPresent (p : Payload) (k : String) : Bool :=
  match dlookup p k with
  | some (JValue.obj _) => true
  | some _ => false
  | none => true

/-- Mirror of the wording of the specification for the chat handler: the
value of sender.username, defaulting to the string unknown when absent at
any nesting level. -/
def specChatSender (p : Payload) : JValue :=
  match dlookup p "sender" with
  | some (JValue.obj fs) => (dlookup fs "username").getD (JValue.str "unknown")
  | _ => JValue.str "unknown"

/-- Mirror of the wording of the specification for the chat handler: the
value of content, defaulting to the empty string when absent. -/
def specChatContent (p : Payload) : JValue :=
  match dlookup p "content" with
  | some v => v
  | none => JValue.str ""

/-- Mirror of the wording of the specification for the follow handler: the
value of follower.username, defaulting to the string unknown when absent at
any nesting level. -/
def specFollowUser (p : Payload) : JValue :=
  match dlookup p "follower" with
  | some (JValue.obj fs) => (dlookup fs "username").getD (JValue.str "unknown")
  | _ => JValue.str "unknown"

/-- Sample chat payload also carrying the follower key, used to witness the
classifier claim. -/
def chatAndFollowPayload : Payload :=
  [("message_id", JValue.null), ("sender", JValue.null), ("content", JValue.null),
   ("follower", JValue.null)]

/-- The same keys as chatAndFollowPayload with entirely different values. -/
def chatAndFollowPayloadB : Payload :=
  [("message_id", JValue.num 1), ("sender", JValue.num 2), ("content", JValue.num 3),
   ("follower", JValue.num 4)]

/-- The in-memory login state store PKCE_STORE, semantically a partial map
from state strings to verifier strings. -/
def StateStore : Type := String → Option String

/-- The store of a freshly started process: empty. -/
def emptyStore : StateStore := fun _ => none

/-- Model of the dict assignment PKCE_STORE[state] = verifier: stores a
mapping, overwriting any previous one for the same state. -/
def pkceStorePut (store : StateStore) (state verifier : String) : StateStore :=
  fun k => if k = state then some verifier else store k

/-- Model of PKCE_STORE.pop(state, None), the body of pop_verifier in
src/kick.py and the first step of the callback route: returns the stored
verifier (or none) and deletes the mapping. -/
def pop_verifier (store : StateStore) (state : String) : Option String × StateStore :=
  (store state, fun k => if k = state then none else store k)

/-- Store reached by replaying a list of put operations from the empty
store of process start. -/
def runPuts (ops : List (String × String)) : StateStore :=
  ops.foldl (fun st p => pkceStorePut st p.1 p.2) emptyStore

/-- Abstraction of the token file on disk as seen through json.load: either
the file is missing, or it exists but its contents are not valid JSON, or it
parses to a JSON value. -/
inductive FileOutcome where
  | missing : FileOutcome
  | invalidJson : FileOutcome
  | json (v : JValue) : FileOutcome

/-- Embedding of load_token from src/app.py: only FileNotFoundError is
caught and turned into None; a JSON parse failure propagates. -/
def load_token (file : FileOutcome) : Except PyError (Option JValue) :=
  match file with
  | FileOutcome.missing => Except.ok none
  | FileOutcome.invalidJson => Except.error PyError.jsonDecodeError
  | FileOutcome.json v => Except.ok (some v)

/-- Python truthiness of a decoded JSON value: None, False, 0, the empty
string, the empty list and the empty dict are falsy. -/
def pyTruthy (v : JValue) : Bool :=
  match v with
  | JValue.null => false
  | JValue.bool b => b
  | JValue.num n => !(n == 0)
  | JValue.str s => !(s == "")
  | JValue.arr xs => !xs.isEmpty
  | JValue.obj fs => !fs.isEmpty

/-- Substring test on character lists, the semantics of the Python
expression needle in hay for strings. -/
def listContainsSub (needle hay : List Char) : Bool :=
  hay.tails.any (fun t => needle.isPrefixOf t)

/-- Substring test on strings. -/
def strContains (hay needle : String) : Bool :=
  listContainsSub needle.data hay.data

/-- Model of the str method startswith: prefix test on the character
lists. -/
def strStartsWith (s p : String) : Bool :=
  p.data.isPrefixOf s.data

/-- Model of the Python expression needle in container for a string needle:
dicts test key membership, lists test element equality, strings test
substring containment, and every other value raises TypeError. -/
def pyContains (container : JValue) (needle : String) : Except PyError Bool :=
  match container with
  | JValue.obj fs => Except.ok (hasKey fs needle)
  | JValue.arr xs =>
      Except.ok (xs.any (fun x => match x with
        | JValue.str t => t == needle
        | _ => false))
  | JValue.str s => Except.ok (strContains s needle)
  | _ => Except.error PyError.typeError

/-- Model of the Python expression v[k] for a string key: a dict yields the
value or raises KeyError; strings, lists and every other value raise
TypeError for a string index. -/
def pySubscript (v : JValue) (k : String) : Except PyError JValue :=
  match v with
  | JValue.obj fs =>
      match dlookup fs k with
      | some x => Except.ok x
      | none => Except.error PyError.keyError
  | _ => Except.error PyError.typeError

/-- Embedding of the startup block of src/app.py that populates the token
cache: saved = load_token(); if saved and access_token in saved, cache
saved[access_token].  The result is the cached access token slot of TOKENS,
or the propagated exception. -/
def startup (file : FileOutcome) : Except PyError (Option JValue) :=
  match load_token file with
  | Except.error e => Except.error e
  | Except.ok none => Except.ok none
  | Except.ok (some v) =>
      if pyTruthy v then
        match pyContains v "access_token" with
        | Except.error e => Except.error e
        | Except.ok true =>
            match pySubscript v "access_token" with
            | Except.error e => Except.error e
            | Except.ok a => Except.ok (some a)
        | Except.ok false => Except.ok none
      else
        Except.ok none

/-- An upstream HTTP response as the requests library presents it: status
code, raw body text, the content-type header (already defaulted to the
empty string when absent), and the outcome of calling the json method on
it. -/
structure HttpResponse where
  status_code : Nat
  text : String
  content_type : String
  jsonResult : Except PyError JValue

/-- The record built by do_subscribe: status code, body text, and the parsed
body only when the content type is JSON. -/
structure SubscriptionResult where
  status_code : Nat
  text : String
  json : Option JValue

/-- Outcome of an outbound requests.post call: either a network-level
failure (timeout, connection refused, DNS failure) or a response. -/
inductive RequestOutcome where
  | netError : RequestOutcome
  | response (r : HttpResponse) : RequestOutcome

/-- Errors raised by exchange_code_for_token: a propagated network-level
failure, an HTTPError from raise_for_status carrying the upstream status and
body, or a JSON decode failure of the success body. -/
inductive TokenExchangeError where
  | network : TokenExchangeError
  | httpStatus (status : Nat) (body : String) : TokenExchangeError
  | decodeFailure : TokenExchangeError
  deriving DecidableEq

/-- Model of requests raise_for_status: raises HTTPError exactly for status
codes 400 through 599, carrying the status and body. -/
def raise_for_status (r : HttpResponse) : Except TokenExchangeError Unit :=
  if 400 ≤ r.status_code ∧ r.status_code < 600 then
    Except.error (TokenExchangeError.httpStatus r.status_code r.text)
  else
    Except.ok ()

/-- Embedding of exchange_code_for_token from src/kick.py, as a function of
the outcome of its one requests.post call: a network failure propagates,
raise_for_status raises on a non-success status, and otherwise the parsed
response body is returned. -/
def exchange_code_for_token (outcome : RequestOutcome) : Except TokenExchangeError JValue :=
  match outcome with
  | RequestOutcome.netError => Except.error TokenExchangeError.network
  | RequestOutcome.response r => do
      let _ ← raise_for_status r
      match r.jsonResult with
      | Except.ok j => Except.ok j
      | Except.error _ => Except.error TokenExchangeError.decodeFailure

/-- Embedding of do_subscribe from src/kick.py and src/app.py, as a function
of the response to its one requests.post call: it never consults the status
code for raising and always builds the result record; the body is parsed
only when the content type starts with application/json. -/
def do_subscribe (r : HttpResponse) : Except PyError SubscriptionResult :=
  if strStartsWith r.content_type "application/json" then
    match r.jsonResult with
    | Except.ok j => Except.ok ⟨r.status_code, r.text, some j⟩
    | Except.error e => Except.error e
  else
    Except.ok ⟨r.status_code, r.text, none⟩

/-- Pages the app redirects the browser to after the callback or subscribe
routes; halfSuccessPage models the partial-success page shown when the
login succeeded but the event subscription attempt failed. -/
inductive PageResponse where
  | failurePage (msg : String) : PageResponse
  | halfSuccessPage (msg : String) : PageResponse
  | successPage : PageResponse
  deriving DecidableEq

/-- The mutable application state the claims concern: the login state store,
the in-memory token cache slot TOKENS[access_token], the persisted token
file, and the persisted last subscription response. -/
structure AppState where
  pkce : StateStore
  tokens : Option JValue
  tokenFile : Option JValue
  subFile : Option SubscriptionResult

/-- Failure message of the callback route for an unknown or expired state. -/
def stateFailMsg : String := "Invalid or expired login session (state). Please try again."

/-- Failure message of the callback route for a failed token exchange. -/
def exchangeFailMsg : String := "Token exchange failed. Check redirect URI + client credentials."

/-- Message of the partial-success page after a failed auto-subscription. -/
def subFailMsg : String :=
  "Authorized OK, but event subscription failed. See json/last_subscribe_response.json."

/-- Error message of the subscribe route when no token is cached. -/
def noTokenMsg : String := "No token yet. Go to /login first."

/-- Message of the partial-success page after a failed manual retry. -/
def retryFailMsg : String := "Retry failed. Check json/last_subscribe_response.json."

/-- Embedding of the callback route of src/app.py.  The token exchange
request and the subscription request are modelled by their outcomes, passed
as arguments.  The route catches RequestException around the exchange
(network failures and raise_for_status errors) and turns it into a failure
redirect; exceptions after that point (a malformed success body, a missing
access_token key, a malformed subscription body) escape as 500s, which the
Except.error models.  State mutations on an escaping-exception path are
discarded by the model; no claim depends on them. -/
def callback (st : AppState) (state : String) (outcome : RequestOutcome)
    (subResp : HttpResponse) : Except PyError (AppState × PageResponse) :=
  let popped := pop_verifier st.pkce state
  let st0 : AppState := { st with pkce := popped.2 }
  match popped.1 with
  | none => Except.ok (st0, PageResponse.failurePage stateFailMsg)
  | some _verifier =>
    match outcome with
    | RequestOutcome.netError => Except.ok (st0, PageResponse.failurePage exchangeFailMsg)
    | RequestOutcome.response r =>
      if 400 ≤ r.status_code ∧ r.status_code < 600 then
        Except.ok (st0, PageResponse.failurePage exchangeFailMsg)
      else
        match r.jsonResult with
        | Except.error e => Except.error e
        | Except.ok token =>
          let st1 : AppState := { st0 with tokenFile := some token }
          match pySubscript token "access_token" with
          | Except.error e => Except.error e
          | Except.ok access_token =>
            let st2 : AppState := { st1 with tokens := some access_token }
            match do_subscribe subResp with
            | Except.error e => Except.error e
            | Except.ok sub =>
              let st3 : AppState := { st2 with subFile := some sub }
              if 400 ≤ sub.status_code then
                Except.ok (st3, PageResponse.halfSuccessPage subFailMsg)
              else
                Except.ok (st3, PageResponse.successPage)

/-- Results of the manual subscribe route: the JSON error object for a
missing token, a redirect for HTML clients, or the raw subscription result
record. -/
inductive SubscribeOutcome where
  | noTokenJson : SubscribeOutcome
  | page (p : PageResponse) : SubscribeOutcome
  | result (res : SubscriptionResult) : SubscribeOutcome

/-- Model of the guard accept and text/html in accept over the optional
Accept header. -/
def acceptHasHtml (accept : Option String) : Bool :=
  match accept with
  | none => false
  | some a => !(a == "") && strContains a "text/html"

/-- Model of the guard if not access_token, which treats both an absent
cache entry and a falsy cached value as no token. -/
def tokenAbsent (t : Option JValue) : Bool :=
  match t with
  | none => true
  | some v => !pyTruthy v

/-- Embedding of the subscribe route of src/app.py, as a function of the
cached state, the Accept header, and the response to the subscription
request it would make.  When no token is cached the route answers
immediately and no subscription request exists; this is expressed by the
result being independent of the response argument and leaving the state
untouched. -/
def subscribe (st : AppState) (accept : Option String) (subResp : HttpResponse) :
    Except PyError (AppState × SubscribeOutcome) :=
  if tokenAbsent st.tokens then
    if acceptHasHtml accept then
      Except.ok (st, SubscribeOutcome.page (PageResponse.failurePage noTokenMsg))
    else
      Except.ok (st, SubscribeOutcome.noTokenJson)
  else
    match do_subscribe subResp with
    | Except.error e => Except.error e
    | Except.ok result =>
      let st1 : AppState := { st with subFile := some result }
      if acceptHasHtml accept then
        if 400 ≤ result.status_code then
          Except.ok (st1, SubscribeOutcome.page (PageResponse.halfSuccessPage retryFailMsg))
        else
          Except.ok (st1, SubscribeOutcome.page PageResponse.successPage)
      else
        Except.ok (st1, SubscribeOutcome.result result)

/-- The application state reached by a callback whose exchange succeeded
with the given token and whose auto-subscription got the given result. -/
def postCallbackState (st : AppState) (state : String) (token access_token : JValue)
    (sub : SubscriptionResult) : AppState :=
  { pkce := (pop_verifier st.pkce state).2
    tokens := some access_token
    tokenFile := some token
    subFile := some sub }

/-- UTF-8 encoding of one character, the bytes str.encode produces for it. -/
def charUtf8 (c : Char) : List Nat :=
  let n := c.toNat
  if n < 128 then [n]
  else if n < 2048 then [192 + n / 64, 128 + n % 64]
  else if n < 65536 then [224 + n / 4096, 128 + n / 64 % 64, 128 + n % 64]
  else [240 + n / 262144, 128 + n / 4096 % 64, 128 + n / 64 % 64, 128 + n % 64]

/-- Model of str.encode: the UTF-8 bytes of a string. -/
def strBytes (s : String) : List Nat :=
  s.data.flatMap charUtf8

/-- Modulus of 32-bit machine arithmetic, 2 ^ 32. -/
def M32 : Nat := 4294967296

/-- Addition modulo 2 ^ 32. -/
def add32 (a b : Nat) : Nat := (a + b) % M32

/-- Right rotation of a 32-bit word by n bits. -/
def rotr32 (n x : Nat) : Nat := (x / 2 ^ n + x % 2 ^ n * 2 ^ (32 - n)) % M32

/-- Logical right shift by n bits. -/
def shr32 (n x : Nat) : Nat := x / 2 ^ n

/-- Bitwise complement within 32 bits. -/
def not32 (x : Nat) : Nat := Nat.xor x (M32 - 1)

/-- The SHA-256 choice function. -/
def ch32 (x y z : Nat) : Nat := Nat.xor (Nat.land x y) (Nat.land (not32 x) z)

/-- The SHA-256 majority function. -/
def maj32 (x y z : Nat) : Nat :=
  Nat.xor (Nat.xor (Nat.land x y) (Nat.land x z)) (Nat.land y z)

/-- The SHA-256 compression sigma function Sigma0. -/
def bigSigma0 (x : Nat) : Nat := Nat.xor (Nat.xor (rotr32 2 x) (rotr32 13 x)) (rotr32 22 x)

/-- The SHA-256 compression sigma function Sigma1. -/
def bigSigma1 (x : Nat) : Nat := Nat.xor (Nat.xor (rotr32 6 x) (rotr32 11 x)) (rotr32 25 x)

/-- The SHA-256 message schedule sigma function sigma0. -/
def smallSigma0 (x : Nat) : Nat := Nat.xor (Nat.xor (rotr32 7 x) (rotr32 18 x)) (shr32 3 x)

/-- The SHA-256 message schedule sigma function sigma1. -/
def smallSigma1 (x : Nat) : Nat := Nat.xor (Nat.xor (rotr32 17 x) (rotr32 19 x)) (shr32 10 x)

/-- The 64 SHA-256 round constants of FIPS 180-4. -/
def sha256K : List Nat :=
  [1116352408, 1899447441, 3049323471, 3921009573, 961987163,
   1508970993, 2453635748, 2870763221, 3624381080, 310598401,
   607225278, 1426881987, 1925078388, 2162078206, 2614888103,
   3248222580, 3835390401, 4022224774, 264347078, 604807628,
   770255983, 1249150122, 1555081692, 1996064986, 2554220882,
   2821834349, 2952996808, 3210313671, 3336571891, 3584528711,
   113926993, 338241895, 666307205, 773529912, 1294757372,
   1396182291, 1695183700, 1986661051, 2177026350, 2456956037,
   2730485921, 2820302411, 3259730800, 3345764771, 3516065817,
   3600352804, 4094571909, 275423344, 430227734, 506948616,
   659060556, 883997877, 958139571, 1322822218, 1537002063,
   1747873779, 1955562222, 2024104815, 2227730452, 2361852424,
   2428436474, 2756734187, 3204031479, 3329325298]

/-- The running hash value of the SHA-256 compression function, eight 32-bit
words. -/
structure HashState where
  a : Nat
  b : Nat
  c : Nat
  d : Nat
  e : Nat
  f : Nat
  g : Nat
  h : Nat

/-- The SHA-256 initial hash value of FIPS 180-4. -/
def sha256H0 : HashState :=
  ⟨1779033703, 3144134277, 1013904242, 2773480762, 1359893119, 2600822924, 528734635, 1541459225⟩

/-- One round of the SHA-256 compression function. -/
def sha256Round (st : HashState) (k w : Nat) : HashState :=
  let t1 := add32 st.h (add32 (bigSigma1 st.e) (add32 (ch32 st.e st.f st.g) (add32 k w)))
  let t2 := add32 (bigSigma0 st.a) (maj32 st.a st.b st.c)
  ⟨add32 t1 t2, st.a, st.b, st.c, add32 st.d t1, st.e, st.f, st.g⟩

/-- Big-endian 32-bit words from a byte list, four bytes at a time. -/
def wordsOfBytes : List Nat → List Nat
  | b1 :: b2 :: b3 :: b4 :: rest =>
      (b1 * 16777216 + b2 * 65536 + b3 * 256 + b4) :: wordsOfBytes rest
  | _ => []

/-- Extension of a 16-word message block by the given number of further
schedule entries, each combining four earlier entries. -/
def extendSchedule (ws : List Nat) : Nat → List Nat
  | 0 => ws
  | n + 1 =>
      let prev := extendSchedule ws n
      let len := prev.length
      prev ++ [add32 (add32 (smallSigma1 (prev.getD (len - 2) 0)) (prev.getD (len - 7) 0))
                     (add32 (smallSigma0 (prev.getD (len - 15) 0)) (prev.getD (len - 16) 0))]

/-- Processing of one 64-byte block, updating the running hash value. -/
def sha256Block (st : HashState) (block : List Nat) : HashState :=
  let w := extendSchedule (wordsOfBytes block) 48
  let r := (List.zip sha256K w).foldl (fun s p => sha256Round s p.1 p.2) st
  ⟨add32 st.a r.a, add32 st.b r.b, add32 st.c r.c, add32 st.d r.d,
   add32 st.e r.e, add32 st.f r.f, add32 st.g r.g, add32 st.h r.h⟩

/-- Big-endian eight-byte encoding of the 64-bit message bit length. -/
def lenBytes64 (n : Nat) : List Nat :=
  [n / 72057594037927936 % 256, n / 281474976710656 % 256, n / 1099511627776 % 256,
   n / 4294967296 % 256, n / 16777216 % 256, n / 65536 % 256, n / 256 % 256, n % 256]

/-- SHA-256 padding: the 0x80 byte, zeros up to 56 modulo 64, and the bit
length. -/
def sha256Pad (msg : List Nat) : List Nat :=
  let z := (119 - msg.length % 64) % 64
  msg ++ 128 :: List.replicate z 0 ++ lenBytes64 (msg.length * 8)

/-- Split of a byte list into 64-byte blocks, with a fuel argument that
makes the recursion structural; the fuel never runs out because every step
consumes at least one byte. -/
def chunk64Aux : Nat → List Nat → List (List Nat)
  | 0, _ => []
  | _, [] => []
  | fuel + 1, b :: rest => (b :: rest).take 64 :: chunk64Aux fuel ((b :: rest).drop 64)

/-- Split of a byte list into 64-byte blocks. -/
def chunk64 (bs : List Nat) : List (List Nat) := chunk64Aux bs.length bs

/-- Big-endian four-byte serialization of a 32-bit word. -/
def bytesOfWord32 (w : Nat) : List Nat :=
  [w / 16777216 % 256, w / 65536 % 256, w / 256 % 256, w % 256]

/-- The SHA-256 digest of a byte string, as 32 bytes.  Validated against the
FIPS 180-4 test vectors below. -/
def sha256 (msg : List Nat) : List Nat :=
  let fin := (chunk64 (sha256Pad msg)).foldl sha256Block sha256H0
  [fin.a, fin.b, fin.c, fin.d, fin.e, fin.f, fin.g, fin.h].flatMap bytesOfWord32

/-- The URL-safe base64 alphabet, as used by base64.urlsafe_b64encode. -/
def b64UrlAlphabet : List Char :=
  "ABCDEFGHIJKLMNOPQRSTUVWXYZabcdefghijklmnopqrstuvwxyz0123456789-_".data

/-- The URL-safe base64 character for a 6-bit value. -/
def b64char (n : Nat) : Char := b64UrlAlphabet.getD n 'A'

/-- Model of base64.urlsafe_b64encode on a byte string: full three-byte
groups yield four alphabet characters, a trailing group yields alphabet
characters plus padding. -/
def urlsafe_b64encode : List Nat → List Char
  | [] => []
  | [b1] => [b64char (b1 / 4), b64char (b1 % 4 * 16), '=', '=']
  | [b1, b2] => [b64char (b1 / 4), b64char (b1 % 4 * 16 + b2 / 16), b64char (b2 % 16 * 4), '=']
  | b1 :: b2 :: b3 :: rest =>
      b64char ((b1 * 65536 + b2 * 256 + b3) / 262144) ::
      b64char ((b1 * 65536 + b2 * 256 + b3) / 4096 % 64) ::
      b64char ((b1 * 65536 + b2 * 256 + b3) / 64 % 64) ::
      b64char ((b1 * 65536 + b2 * 256 + b3) % 64) ::
      urlsafe_b64encode rest

/-- Model of str.rstrip applied with the padding character: removes every
trailing equals sign. -/
def rstripEq (cs : List Char) : List Char :=
  (cs.reverse.dropWhile (fun c => c == '=')).reverse

/-- Embedding of pkce_challenge_s256 from src/kick.py and src/app.py:
URL-safe base64 of the SHA-256 digest of the UTF-8 bytes of the verifier,
with trailing padding stripped. -/
def pkce_challenge_s256 (verifier : String) : String :=
  String.mk (rstripEq (urlsafe_b64encode (sha256 (strBytes verifier))))

/-- Decision of membership in the URL-safe base64 alphabet. -/
def isB64UrlChar (c : Char) : Bool :=
  ('A' ≤ c && c ≤ 'Z') || ('a' ≤ c && c ≤ 'z') || ('0' ≤ c && c ≤ '9') || c == '-' || c == '_'

/-- The OAuth client configuration read from the environment. -/
structure ClientConfig where
  client_id : String
  redirect_uri : String

/-- Bytes urllib quote never escapes: ASCII letters, digits, and the four
marks underscore, dot, hyphen, tilde. -/
def isAlwaysSafeByte (b : Nat) : Bool :=
  (65 ≤ b && b ≤ 90) || (97 ≤ b && b ≤ 122) || (48 ≤ b && b ≤ 57) ||
  b == 45 || b == 46 || b == 95 || b == 126

/-- Uppercase hexadecimal digit for a value below 16. -/
def hexUpper (n : Nat) : Char := "0123456789ABCDEF".data.getD n '0'

/-- Encoding of one byte under quote_plus: safe bytes stand for themselves,
the space becomes a plus, and every other byte becomes a percent escape. -/
def quotePlusByte (b : Nat) : List Char :=
  if isAlwaysSafeByte b then [Char.ofNat b]
  else if b == 32 then ['+']
  else ['%', hexUpper (b / 16 % 16), hexUpper (b % 16)]

/-- Model of urllib.parse.quote_plus over the UTF-8 bytes of a string. -/
def quote_plus (s : String) : String :=
  String.mk ((strBytes s).flatMap quotePlusByte)

/-- Model of urllib.parse.urlencode: the key=value pairs, each side
quote_plus encoded, joined with ampersands in insertion order. -/
def urlencode (q : List (String × String)) : String :=
  String.intercalate "&" (q.map (fun p => quote_plus p.1 ++ "=" ++ quote_plus p.2))

/-- The query dict built by build_auth_url in src/kick.py and by the login
route in src/app.py, in insertion order. -/
def authQuery (cfg : ClientConfig) (state challenge : String) : List (String × String) :=
  [("response_type", "code"),
   ("client_id", cfg.client_id),
   ("redirect_uri", cfg.redirect_uri),
   ("scope", "events:subscribe"),
   ("code_challenge", challenge),
   ("code_challenge_method", "S256"),
   ("state", state)]

/-- Embedding of build_auth_url from src/kick.py: the authorize endpoint of
the fixed OAuth host followed by the urlencoded query. -/
def build_auth_url (cfg : ClientConfig) (state challenge : String) : String :=
  "https://id.kick.com/oauth/authorize?" ++ urlencode (authQuery cfg state challenge)

/-- The authorize URL the login flow produces for a given state and
verifier: build_auth_url applied to the challenge derived from the
verifier, as in start_login and the login route. -/
def loginAuthUrl (cfg : ClientConfig) (state verifier : String) : String :=
  build_auth_url cfg state (pkce_challenge_s256 verifier)

/-! ## Helper lemmas -/

theorem hasKey_eq_isSome (p : List (String × JValue)) (k : String) :
    hasKey p k = (dlookup p k).isSome := by
  induction p with
  | nil => rfl
  | cons q t ih =>
    simp only [hasKey, dlookup, List.any_cons, List.lookup] at *
    by_cases h : q.1 = k
    · subst h
      simp
    · have h1 : (q.1 == k) = false := beq_eq_false_iff_ne.mpr h
      have h2 : (k == q.1) = false := beq_eq_false_iff_ne.mpr (Ne.symm h)
      simp [h1, h2, ih]

theorem b64char_safe : ∀ n, n < 64 → isB64UrlChar (b64char n) = true := by decide

theorem b64char_ne_pad : ∀ n, n < 64 → (b64char n == '=') = false := by decide

theorem b64encode_split (bs : List Nat) : (∀ b ∈ bs, b < 256) →
    ∃ body pad, urlsafe_b64encode bs = body ++ pad ∧
      (∀ c ∈ body, isB64UrlChar c = true) ∧ (∀ c ∈ pad, c = '=') := by
  induction bs using urlsafe_b64encode.induct with
  | case1 =>
    intro _
    exact ⟨[], [], rfl, by simp, by simp⟩
  | case2 b1 =>
    intro hb
    have h1 : b1 < 256 := hb b1 (by simp)
    refine ⟨[b64char (b1 / 4), b64char (b1 % 4 * 16)], ['=', '='], rfl, ?_, by simp⟩
    intro c hc
    have hd : b1 / 4 < 64 := by omega
    have hm : b1 % 4 < 4 := Nat.mod_lt _ (by norm_num)
    simp only [List.mem_cons, List.not_mem_nil, or_false] at hc
    rcases hc with rfl | rfl
    · exact b64char_safe _ hd
    · exact b64char_safe _ (by omega)
  | case3 b1 b2 =>
    intro hb
    have h1 : b1 < 256 := hb b1 (by simp)
    have h2 : b2 < 256 := hb b2 (by simp)
    refine ⟨[b64char (b1 / 4), b64char (b1 % 4 * 16 + b2 / 16), b64char (b2 % 16 * 4)],
            ['='], rfl, ?_, by simp⟩
    intro c hc
    have hm1 : b1 % 4 < 4 := Nat.mod_lt _ (by norm_num)
    have hm2 : b2 % 16 < 16 := Nat.mod_lt _ (by norm_num)
    have hd1 : b1 / 4 < 64 := by omega
    have hd2 : b2 / 16 < 16 := by omega
    simp only [List.mem_cons, List.not_mem_nil, or_false] at hc
    rcases hc with rfl | rfl | rfl
    · exact b64char_safe _ hd1
    · exact b64char_safe _ (by omega)
    · exact b64char_safe _ (by omega)
  | case4 b1 b2 b3 rest ih =>
    intro hb
    have h1 : b1 < 256 := hb b1 (by simp)
    have h2 : b2 < 256 := hb b2 (by simp)
    have h3 : b3 < 256 := hb b3 (by simp)
    obtain ⟨body, pad, he, hbody, hpad⟩ := ih (fun b hb' => hb b (by simp [hb']))
    have hn : b1 * 65536 + b2 * 256 + b3 < 16777216 := by omega
    refine ⟨b64char ((b1 * 65536 + b2 * 256 + b3) / 262144) ::
            b64char ((b1 * 65536 + b2 * 256 + b3) / 4096 % 64) ::
            b64char ((b1 * 65536 + b2 * 256 + b3) / 64 % 64) ::
            b64char ((b1 * 65536 + b2 * 256 + b3) % 64) :: body, pad, ?_, ?_, hpad⟩
    · simp only [urlsafe_b64encode, he, List.cons_append]
    · intro c hc
      have hd : (b1 * 65536 + b2 * 256 + b3) / 262144 < 64 := by omega
      simp only [List.mem_cons] at hc
      rcases hc with rfl | rfl | rfl | rfl | hc
      · exact b64char_safe _ hd
      · exact b64char_safe _ (Nat.mod_lt _ (by norm_num))
      · exact b64char_safe _ (Nat.mod_lt _ (by norm_num))
      · exact b64char_safe _ (Nat.mod_lt _ (by norm_num))
      · exact hbody c hc

theorem dropWhile_append_all {p : Char → Bool} {xs ys : List Char}
    (h : ∀ x ∈ xs, p x = true) : (xs ++ ys).dropWhile p = ys.dropWhile p := by
  induction xs with
  | nil => rfl
  | cons a t ih =>
    simp only [List.cons_append, List.dropWhile_cons, h a (by simp)]
    exact ih (fun x hx => h x (by simp [hx]))

theorem dropWhile_eq_self_of_all {p : Char → Bool} {xs : List Char}
    (h : ∀ x ∈ xs, p x = false) : xs.dropWhile p = xs := by
  cases xs with
  | nil => rfl
  | cons a t => simp [List.dropWhile_cons, h a (by simp)]

theorem b64url_ne_pad {c : Char} (h : isB64UrlChar c = true) : (c == '=') = false := by
  cases h' : c == '='
  · rfl
  · have : c = '=' := by
      have := eq_of_beq h'
      exact this
    rw [this] at h
    exact absurd h (by decide)

theorem rstrip_split (body pad : List Char) (hbody : ∀ c ∈ body, (c == '=') = false)
    (hpad : ∀ c ∈ pad, c = '=') : rstripEq (body ++ pad) = body := by
  unfold rstripEq
  rw [List.reverse_append]
  rw [dropWhile_append_all (fun x hx => by
    have : x = '=' := hpad x (List.mem_reverse.mp hx)
    simp [this])]
  rw [dropWhile_eq_self_of_all (fun x hx => hbody x (List.mem_reverse.mp hx))]
  exact List.reverse_reverse _

theorem filter_split (body pad : List Char) (hbody : ∀ c ∈ body, (c == '=') = false)
    (hpad : ∀ c ∈ pad, c = '=') :
    (body ++ pad).filter (fun c => !(c == '=')) = body := by
  rw [List.filter_append]
  have h1 : body.filter (fun c => !(c == '=')) = body :=
    List.filter_eq_self.mpr (fun c hc => by simp [hbody c hc])
  have h2 : pad.filter (fun c => !(c == '=')) = [] := by
    induction pad with
    | nil => rfl
    | cons a t ih =>
      have ha : a = '=' := hpad a (by simp)
      simp only [List.filter_cons, ha]
      exact ih (fun c hc => hpad c (by simp [hc]))
  rw [h1, h2, List.append_nil]

theorem sha256_bytes_lt (msg : List Nat) : ∀ b ∈ sha256 msg, b < 256 := by
  intro b hb
  simp only [sha256, List.mem_flatMap, bytesOfWord32, List.mem_cons, List.not_mem_nil,
    or_false] at hb
  obtain ⟨w, _, hw⟩ := hb
  rcases hw with rfl | rfl | rfl | rfl <;> exact Nat.mod_lt _ (by norm_num)

/-! ## Claim C4: the PKCE challenge derivation -/

/-- Claim C4: for every verifier string, pkce_challenge_s256 equals the
URL-safe base64 encoding of the SHA-256 digest of the byte encoding of the
verifier with every padding equals sign removed, the output contains no
equals sign, and every character of the output lies in the URL-safe base64
alphabet.  Determinism and absence of side effects are immediate from the
embedding being a pure function of the verifier. -/
theorem pkce_challenge_properties (v : String) :
    (pkce_challenge_s256 v).data.all isB64UrlChar = true ∧
    (pkce_challenge_s256 v).data.all (fun c => !(c == '=')) = true ∧
    pkce_challenge_s256 v =
      String.mk ((urlsafe_b64encode (sha256 (strBytes v))).filter (fun c => !(c == '='))) := by
  obtain ⟨body, pad, he, hbody, hpad⟩ :=
    b64encode_split (sha256 (strBytes v)) (sha256_bytes_lt _)
  have hne : ∀ c ∈ body, (c == '=') = false := fun c hc => b64url_ne_pad (hbody c hc)
  have hch : pkce_challenge_s256 v = String.mk body := by
    unfold pkce_challenge_s256
    rw [he, rstrip_split body pad hne hpad]
  refine ⟨?_, ?_, ?_⟩
  · rw [hch]
    exact List.all_eq_true.mpr hbody
  · rw [hch]
    exact List.all_eq_true.mpr (fun c hc => by simp [hne c hc])
  · rw [hch, he, filter_split body pad hne hpad]

/-- Witness for claim C4 at the concrete verifier of scenario A. -/
theorem pkce_challenge_properties_witness :
    (pkce_challenge_s256 "v1").data.all isB64UrlChar = true ∧
    (pkce_challenge_s256 "v1").data.all (fun c => !(c == '=')) = true ∧
    pkce_challenge_s256 "v1" =
      String.mk ((urlsafe_b64encode (sha256 (strBytes "v1"))).filter (fun c => !(c == '='))) :=
  pkce_challenge_properties "v1"

theorem specChatContent_eq_dictGet (p : Payload) :
    specChatContent p = dictGet p "content" (JValue.str "") := by
  unfold specChatContent dictGet
  cases dlookup p "content" <;> rfl

theorem handle_chat_ok (p : Payload) (hs : objIfPresent p "sender" = true) :
    handle_chat_message p = Except.ok (specChatSender p, specChatContent p) := by
  unfold objIfPresent at hs
  unfold handle_chat_message specChatSender
  rw [specChatContent_eq_dictGet]
  cases h : dlookup p "sender" with
  | none =>
    simp only [dictGet, h, Option.getD, jGet]
    rfl
  | some v =>
    rw [h] at hs
    cases v <;> simp_all [dictGet, jGet]
    rfl

theorem handle_follow_ok (p : Payload) (hf : objIfPresent p "follower" = true) :
    handle_follow p = Except.ok (specFollowUser p) := by
  unfold objIfPresent at hf
  unfold handle_follow specFollowUser
  cases h : dlookup p "follower" with
  | none =>
    simp only [dictGet, h, Option.getD, jGet]
    rfl
  | some v =>
    rw [h] at hf
    cases v <;> simp_all [dictGet, jGet]

theorem foldl_put_none (ops : List (String × String)) (st : StateStore) (s : String)
    (hnever : ∀ q ∈ ops, q.1 ≠ s) (hst : st s = none) :
    (ops.foldl (fun acc q => pkceStorePut acc q.1 q.2) st) s = none := by
  induction ops generalizing st with
  | nil => exact hst
  | cons q t ih =>
    simp only [List.foldl_cons]
    apply ih _ (fun r hr => hnever r (by simp [hr]))
    unfold pkceStorePut
    rw [if_neg (fun h => hnever q (by simp) (by rw [h]))]
    exact hst

/-! ## Claim C1: the webhook classifier -/

/-- Claim C1: classification is a total deterministic function of the keys
of the payload alone (two payloads with the same key memberships classify
identically), the chat shape wins over the follow shape, a payload with the
follow key but not the full chat shape is a follow, and a payload with
neither is unknown. -/
theorem classify_keys_precedence (p q : Payload)
    (hkeys : ∀ k, hasKey p k = hasKey q k) :
    classify p = classify q ∧
    (classify p = EventClass.chat ↔
      (hasKey p "message_id" && hasKey p "sender" && hasKey p "content") = true) ∧
    (classify p = EventClass.follow ↔
      ((hasKey p "message_id" && hasKey p "sender" && hasKey p "content") = false ∧
        hasKey p "follower" = true)) ∧
    (classify p = EventClass.unknown ↔
      ((hasKey p "message_id" && hasKey p "sender" && hasKey p "content") = false ∧
        hasKey p "follower" = false)) := by
  constructor
  · simp only [classify, hkeys "message_id", hkeys "sender", hkeys "content", hkeys "follower"]
  · unfold classify
    cases hc : (hasKey p "message_id" && hasKey p "sender" && hasKey p "content") <;>
      cases hf : hasKey p "follower" <;> simp

/-- Witness for claim C1 at a concrete payload that satisfies both the chat
and the follow shapes, against a payload with the same keys but different
values. -/
theorem classify_keys_precedence_witness :
    classify chatAndFollowPayload = classify chatAndFollowPayloadB ∧
    (classify chatAndFollowPayload = EventClass.chat ↔
      (hasKey chatAndFollowPayload "message_id" && hasKey chatAndFollowPayload "sender" &&
        hasKey chatAndFollowPayload "content") = true) ∧
    (classify chatAndFollowPayload = EventClass.follow ↔
      ((hasKey chatAndFollowPayload "message_id" && hasKey chatAndFollowPayload "sender" &&
        hasKey chatAndFollowPayload "content") = false ∧
        hasKey chatAndFollowPayload "follower" = true)) ∧
    (classify chatAndFollowPayload = EventClass.unknown ↔
      ((hasKey chatAndFollowPayload "message_id" && hasKey chatAndFollowPayload "sender" &&
        hasKey chatAndFollowPayload "content") = false ∧
        hasKey chatAndFollowPayload "follower" = false)) :=
  classify_keys_precedence chatAndFollowPayload chatAndFollowPayloadB (fun _ => rfl)

/-! ## Claim C2: the webhook acknowledgement -/

/-- Claim C2 counterexample: a payload classified as chat whose sender value
is a number makes the chat handler call get on an int, so the route raises
AttributeError and the framework answers with an error status instead of
the ok acknowledgement. -/
theorem kick_webhook_crash_counterexample :
    kick_webhook [("message_id", JValue.num 1), ("sender", JValue.num 2),
      ("content", JValue.str "hi")] = Except.error PyError.attributeError := rfl

/-- Claim C2 as amended: for every payload whose sender and follower values,
when present at all, are objects, the webhook route returns the ok
acknowledgement whatever the classification outcome. -/
theorem kick_webhook_acknowledges (p : Payload)
    (hs : objIfPresent p "sender" = true) (hf : objIfPresent p "follower" = true) :
    kick_webhook p = Except.ok okBody := by
  unfold kick_webhook
  by_cases hc : (hasKey p "message_id" && hasKey p "sender" && hasKey p "content") = true
  · rw [if_pos hc, handle_chat_ok p hs]
  · rw [if_neg hc]
    by_cases hfk : hasKey p "follower" = true
    · rw [if_pos hfk, handle_follow_ok p hf]
    · rw [if_neg hfk]

/-- Witness for the amended claim C2 at a concrete unknown-shaped payload. -/
theorem kick_webhook_acknowledges_witness :
    kick_webhook [("foo", JValue.str "bar")] = Except.ok okBody :=
  kick_webhook_acknowledges [("foo", JValue.str "bar")] rfl rfl

/-! ## Claim C3: the login state store -/

/-- Claim C3: putting a verifier for a state and popping that state yields
the verifier and deletes the mapping, so a second pop yields none; a state
never put (any sequence of puts for other states from the empty store of
process start) pops to none; and a second put for the same state overwrites
the first. -/
theorem pkce_store_single_use (st : StateStore) (s v v' : String)
    (ops : List (String × String)) (hnever : ∀ q ∈ ops, q.1 ≠ s) :
    (pop_verifier (pkceStorePut st s v) s).1 = some v ∧
    ((pop_verifier (pkceStorePut st s v) s).2) s = none ∧
    (pop_verifier ((pop_verifier (pkceStorePut st s v) s).2) s).1 = none ∧
    (pop_verifier (pkceStorePut (pkceStorePut st s v) s v') s).1 = some v' ∧
    (pop_verifier (runPuts ops) s).1 = none := by
  refine ⟨?_, ?_, ?_, ?_, ?_⟩
  · simp [pop_verifier, pkceStorePut]
  · simp [pop_verifier, pkceStorePut]
  · simp [pop_verifier, pkceStorePut]
  · simp [pop_verifier, pkceStorePut]
  · exact foldl_put_none ops emptyStore s hnever rfl

/-- Witness for claim C3 at concrete states and verifiers, with one put for
an unrelated state standing in for the never-inserted case. -/
theorem pkce_store_single_use_witness :
    (pop_verifier (pkceStorePut emptyStore "s1" "v1") "s1").1 = some "v1" ∧
    ((pop_verifier (pkceStorePut emptyStore "s1" "v1") "s1").2) "s1" = none ∧
    (pop_verifier ((pop_verifier (pkceStorePut emptyStore "s1" "v1") "s1").2) "s1").1 = none ∧
    (pop_verifier (pkceStorePut (pkceStorePut emptyStore "s1" "v1") "s1" "v2") "s1").1 =
      some "v2" ∧
    (pop_verifier (runPuts [("other", "w")]) "s1").1 = none :=
  pkce_store_single_use emptyStore "s1" "v1" "v2" [("other", "w")] (by decide)

/-! ## Claim C5: error propagation asymmetry -/

/-- Claim C5 counterexample: do_subscribe does not return a result record
for every response.  A response whose content type is application/json but
whose body fails to parse makes the guarded r.json() call raise, and the
decode error propagates out of do_subscribe, refuting the universal
record-return part of the claim.  This raise does not depend on the status
code, so the asymmetry with the token exchange itself still stands. -/
theorem do_subscribe_raises_counterexample :
    do_subscribe ⟨500, "oops", "application/json", Except.error PyError.jsonDecodeError⟩ =
      Except.error PyError.jsonDecodeError := rfl

/-- Claim C5 as amended: the token exchange raises on a network-level
failure and raises an error carrying the upstream status and body on a
non-success status, while do_subscribe never raises on account of the
status: for every response whose body parses whenever its content type is
JSON it returns the result record, with the json field populated exactly
when the content type is JSON; and the only way do_subscribe raises is the
propagated body-decode failure of a JSON-typed response, independent of the
status code. -/
theorem exchange_subscribe_asymmetry (r rn rj rb : HttpResponse) (j : JValue) (eb : PyError)
    (hs : 400 ≤ r.status_code) (hs' : r.status_code < 600)
    (hctn : strStartsWith rn.content_type "application/json" = false)
    (hjct : strStartsWith rj.content_type "application/json" = true)
    (hjr : rj.jsonResult = Except.ok j)
    (hbct : strStartsWith rb.content_type "application/json" = true)
    (hbr : rb.jsonResult = Except.error eb) :
    exchange_code_for_token RequestOutcome.netError =
      Except.error TokenExchangeError.network ∧
    exchange_code_for_token (RequestOutcome.response r) =
      Except.error (TokenExchangeError.httpStatus r.status_code r.text) ∧
    do_subscribe rn = Except.ok ⟨rn.status_code, rn.text, none⟩ ∧
    do_subscribe rj = Except.ok ⟨rj.status_code, rj.text, some j⟩ ∧
    do_subscribe rb = Except.error eb := by
  refine ⟨rfl, ?_, ?_, ?_, ?_⟩
  · have hr : raise_for_status r =
        Except.error (TokenExchangeError.httpStatus r.status_code r.text) := by
      unfold raise_for_status
      exact if_pos ⟨hs, hs'⟩
    simp only [exchange_code_for_token, hr]
    rfl
  · simp [do_subscribe, hctn]
  · simp [do_subscribe, hjct, hjr]
  · simp [do_subscribe, hbct, hbr]

/-- Witness for the amended claim C5: a plain-text 500 response to the
subscription call still yields a result record, a 500 response to the
exchange raises, a JSON-typed 500 response to the subscription call yields
a populated json field, and a JSON-typed 404 response with an unparseable
body propagates the decode error. -/
theorem exchange_subscribe_asymmetry_witness :
    exchange_code_for_token RequestOutcome.netError =
      Except.error TokenExchangeError.network ∧
    exchange_code_for_token (RequestOutcome.response
      ⟨500, "upstream broke", "text/plain", Except.error PyError.jsonDecodeError⟩) =
      Except.error (TokenExchangeError.httpStatus 500 "upstream broke") ∧
    do_subscribe ⟨502, "bad gateway", "text/html", Except.error PyError.jsonDecodeError⟩ =
      Except.ok ⟨502, "bad gateway", none⟩ ∧
    do_subscribe ⟨500, "null", "application/json", Except.ok JValue.null⟩ =
      Except.ok ⟨500, "null", some JValue.null⟩ ∧
    do_subscribe ⟨404, "not json", "application/json", Except.error PyError.jsonDecodeError⟩ =
      Except.error PyError.jsonDecodeError :=
  exchange_subscribe_asymmetry
    ⟨500, "upstream broke", "text/plain", Except.error PyError.jsonDecodeError⟩
    ⟨502, "bad gateway", "text/html", Except.error PyError.jsonDecodeError⟩
    ⟨500, "null", "application/json", Except.ok JValue.null⟩
    ⟨404, "not json", "application/json", Except.error PyError.jsonDecodeError⟩
    JValue.null PyError.jsonDecodeError
    (by norm_num) (by norm_num) (by decide) (by decide) rfl (by decide) rfl

/-! ## Claim C6: token load at startup -/

/-- Claim C6: a missing token file loads as absent without raising, a
malformed token file raises the parse error rather than returning absent,
and a well-formed file loads its value. -/
theorem load_token_missing_vs_malformed (v : JValue) :
    load_token FileOutcome.missing = Except.ok none ∧
    load_token FileOutcome.invalidJson = Except.error PyError.jsonDecodeError ∧
    load_token (FileOutcome.json v) = Except.ok (some v) :=
  ⟨rfl, rfl, rfl⟩

/-- Witness for claim C6 at a concrete well-formed value. -/
theorem load_token_missing_vs_malformed_witness :
    load_token FileOutcome.missing = Except.ok none ∧
    load_token FileOutcome.invalidJson = Except.error PyError.jsonDecodeError ∧
    load_token (FileOutcome.json JValue.null) = Except.ok (some JValue.null) :=
  load_token_missing_vs_malformed JValue.null

/-! ## Claim C8: handler field extraction -/

/-- Claim C8 counterexample: a payload whose sender value is a string makes
the chat handler call get on a str, raising AttributeError instead of
defaulting the username to unknown. -/
theorem handle_chat_crash_counterexample :
    handle_chat_message [("sender", JValue.str "alice")] =
      Except.error PyError.attributeError := rfl

/-- Claim C8 as amended: for every payload whose sender and follower values,
when present at all, are objects, the chat handler extracts the username of
the sender (defaulting to unknown when the sender or its username is
absent) and the content (defaulting to the empty string when absent), the
follow handler extracts the username of the follower with the same
defaulting, and both complete without failing. -/
theorem handlers_extract_defaults (p : Payload)
    (hs : objIfPresent p "sender" = true) (hf : objIfPresent p "follower" = true) :
    handle_chat_message p = Except.ok (specChatSender p, specChatContent p) ∧
    handle_follow p = Except.ok (specFollowUser p) :=
  ⟨handle_chat_ok p hs, handle_follow_ok p hf⟩

/-- Witness for the amended claim C8 at a concrete chat payload carrying a
sender object with a username and a content string. -/
theorem handlers_extract_defaults_witness :
    handle_chat_message [("sender", JValue.obj [("username", JValue.str "alice")]),
        ("content", JValue.str "hi")] =
      Except.ok (specChatSender [("sender", JValue.obj [("username", JValue.str "alice")]),
        ("content", JValue.str "hi")],
        specChatContent [("sender", JValue.obj [("username", JValue.str "alice")]),
        ("content", JValue.str "hi")]) ∧
    handle_follow [("sender", JValue.obj [("username", JValue.str "alice")]),
        ("content", JValue.str "hi")] =
      Except.ok (specFollowUser [("sender", JValue.obj [("username", JValue.str "alice")]),
        ("content", JValue.str "hi")]) :=
  handlers_extract_defaults [("sender", JValue.obj [("username", JValue.str "alice")]),
    ("content", JValue.str "hi")] rfl rfl

/-! ## Claim C7: the authorize URL -/

set_option maxRecDepth 40000 in
/-- Claim C7 counterexample: the verifier string can occur in the authorize
URL, because the URL necessarily contains fixed text such as the
response_type value; the verifier "code" occurs verbatim in every authorize
URL, refuting the universally quantified non-occurrence. -/
theorem auth_url_verifier_occurs_counterexample :
    strContains (loginAuthUrl ⟨"cid", "http://localhost:8000/callback"⟩ "s1" "code")
      "code" = true := by decide

set_option maxRecDepth 40000 in
/-- Claim C7 as amended: the authorize URL is a pure function of the state,
the client configuration and the challenge derived from the verifier; the
query dict holds exactly the seven fixed keys with state and the derived
challenge in place; the verifier itself is never an input to the URL
construction (two verifiers with the same challenge give the same URL); and
in the concrete scenario with state s1 and verifier v1 the URL contains
state=s1 and the derived code challenge but not the verifier itself. -/
theorem build_auth_url_spec (cfg : ClientConfig) (s v v' : String)
    (hch : pkce_challenge_s256 v = pkce_challenge_s256 v') :
    authQuery cfg s (pkce_challenge_s256 v) =
      [("response_type", "code"), ("client_id", cfg.client_id),
       ("redirect_uri", cfg.redirect_uri), ("scope", "events:subscribe"),
       ("code_challenge", pkce_challenge_s256 v), ("code_challenge_method", "S256"),
       ("state", s)] ∧
    loginAuthUrl cfg s v = build_auth_url cfg s (pkce_challenge_s256 v) ∧
    loginAuthUrl cfg s v = loginAuthUrl cfg s v' ∧
    strContains (loginAuthUrl ⟨"cid", "http://localhost:8000/callback"⟩ "s1" "v1")
      "state=s1" = true ∧
    strContains (loginAuthUrl ⟨"cid", "http://localhost:8000/callback"⟩ "s1" "v1")
      ("code_challenge=" ++ pkce_challenge_s256 "v1") = true ∧
    strContains (loginAuthUrl ⟨"cid", "http://localhost:8000/callback"⟩ "s1" "v1")
      "v1" = false := by
  refine ⟨rfl, rfl, ?_, ?_, ?_, ?_⟩
  · unfold loginAuthUrl
    rw [hch]
  · decide
  · decide
  · decide

/-- Witness for the amended claim C7 at the concrete scenario inputs. -/
theorem build_auth_url_spec_witness :
    authQuery ⟨"cid", "http://localhost:8000/callback"⟩ "s1" (pkce_challenge_s256 "v1") =
      [("response_type", "code"), ("client_id", "cid"),
       ("redirect_uri", "http://localhost:8000/callback"), ("scope", "events:subscribe"),
       ("code_challenge", pkce_challenge_s256 "v1"), ("code_challenge_method", "S256"),
       ("state", "s1")] ∧
    loginAuthUrl ⟨"cid", "http://localhost:8000/callback"⟩ "s1" "v1" =
      build_auth_url ⟨"cid", "http://localhost:8000/callback"⟩ "s1"
        (pkce_challenge_s256 "v1") ∧
    loginAuthUrl ⟨"cid", "http://localhost:8000/callback"⟩ "s1" "v1" =
      loginAuthUrl ⟨"cid", "http://localhost:8000/callback"⟩ "s1" "v1" ∧
    strContains (loginAuthUrl ⟨"cid", "http://localhost:8000/callback"⟩ "s1" "v1")
      "state=s1" = true ∧
    strContains (loginAuthUrl ⟨"cid", "http://localhost:8000/callback"⟩ "s1" "v1")
      ("code_challenge=" ++ pkce_challenge_s256 "v1") = true ∧
    strContains (loginAuthUrl ⟨"cid", "http://localhost:8000/callback"⟩ "s1" "v1")
      "v1" = false :=
  build_auth_url_spec ⟨"cid", "http://localhost:8000/callback"⟩ "s1" "v1" "v1" rfl

/-! ## Claim C9: subscription failure after a successful exchange -/

/-- Claim C9: when the state is known, the exchange response is successful
with a body carrying an access token, and the auto-subscription result has
an error status, the callback ends in the partial-success page with exactly
the exchanged token cached and persisted, and a later manual subscribe call
proceeds past the no-token guard using that same cached state, touching
only the persisted subscription response. -/
theorem callback_subfail_frame
    (st : AppState) (state vrf : String) (r subResp r2 : HttpResponse)
    (token a : JValue) (tf : List (String × JValue)) (subRes res2 : SubscriptionResult)
    (hpop : st.pkce state = some vrf)
    (hstat : r.status_code < 400)
    (hjson : r.jsonResult = Except.ok token)
    (htok : token = JValue.obj tf)
    (ha : dlookup tf "access_token" = some a)
    (hsub : do_subscribe subResp = Except.ok subRes)
    (hfail : 400 ≤ subRes.status_code)
    (hsub2 : do_subscribe r2 = Except.ok res2)
    (htrue : pyTruthy a = true) :
    callback st state (RequestOutcome.response r) subResp =
      Except.ok (postCallbackState st state token a subRes,
        PageResponse.halfSuccessPage subFailMsg) ∧
    (postCallbackState st state token a subRes).tokens = some a ∧
    (postCallbackState st state token a subRes).tokenFile = some token ∧
    subscribe (postCallbackState st state token a subRes) none r2 =
      Except.ok ({ postCallbackState st state token a subRes with subFile := some res2 },
        SubscribeOutcome.result res2) := by
  have hlt : ¬(400 ≤ r.status_code ∧ r.status_code < 600) := by omega
  refine ⟨?_, rfl, rfl, ?_⟩
  · unfold callback
    simp only [pop_verifier, hpop, hlt, if_false, hjson, htok, pySubscript, ha, hsub, hfail,
      if_true, reduceIte]
    rfl
  · unfold subscribe
    have habs : tokenAbsent (postCallbackState st state token a subRes).tokens = false := by
      simp [postCallbackState, tokenAbsent, htrue]
    simp only [habs, hsub2, acceptHasHtml, Bool.false_eq_true, if_false, reduceIte]

/-- Witness for claim C9 at a concrete login state, a successful exchange
response carrying an access token, and a failed subscription response. -/
theorem callback_subfail_frame_witness :
    callback ⟨pkceStorePut emptyStore "s1" "v1", none, none, none⟩ "s1"
        (RequestOutcome.response ⟨200, "tokenbody", "application/json",
          Except.ok (JValue.obj [("access_token", JValue.str "tok")])⟩)
        ⟨500, "boom", "text/plain", Except.error PyError.jsonDecodeError⟩ =
      Except.ok (postCallbackState ⟨pkceStorePut emptyStore "s1" "v1", none, none, none⟩
          "s1" (JValue.obj [("access_token", JValue.str "tok")]) (JValue.str "tok")
          ⟨500, "boom", none⟩,
        PageResponse.halfSuccessPage subFailMsg) ∧
    (postCallbackState ⟨pkceStorePut emptyStore "s1" "v1", none, none, none⟩
        "s1" (JValue.obj [("access_token", JValue.str "tok")]) (JValue.str "tok")
        ⟨500, "boom", none⟩).tokens = some (JValue.str "tok") ∧
    (postCallbackState ⟨pkceStorePut emptyStore "s1" "v1", none, none, none⟩
        "s1" (JValue.obj [("access_token", JValue.str "tok")]) (JValue.str "tok")
        ⟨500, "boom", none⟩).tokenFile =
      some (JValue.obj [("access_token", JValue.str "tok")]) ∧
    subscribe (postCallbackState ⟨pkceStorePut emptyStore "s1" "v1", none, none, none⟩
        "s1" (JValue.obj [("access_token", JValue.str "tok")]) (JValue.str "tok")
        ⟨500, "boom", none⟩) none ⟨204, "", "text/plain", Except.error PyError.jsonDecodeError⟩ =
      Except.ok ({ postCallbackState ⟨pkceStorePut emptyStore "s1" "v1", none, none, none⟩
          "s1" (JValue.obj [("access_token", JValue.str "tok")]) (JValue.str "tok")
          ⟨500, "boom", none⟩ with subFile := some ⟨204, "", none⟩ },
        SubscribeOutcome.result ⟨204, "", none⟩) :=
  callback_subfail_frame
    ⟨pkceStorePut emptyStore "s1" "v1", none, none, none⟩ "s1" "v1"
    ⟨200, "tokenbody", "application/json",
      Except.ok (JValue.obj [("access_token", JValue.str "tok")])⟩
    ⟨500, "boom", "text/plain", Except.error PyError.jsonDecodeError⟩
    ⟨204, "", "text/plain", Except.error PyError.jsonDecodeError⟩
    (JValue.obj [("access_token", JValue.str "tok")]) (JValue.str "tok")
    [("access_token", JValue.str "tok")] ⟨500, "boom", none⟩ ⟨204, "", none⟩
    rfl (by norm_num) rfl rfl rfl rfl (by norm_num) rfl rfl

/-! ## Claim C10: the startup token-cache invariant -/

/-- Claim C10 counterexample: a token file parsing to the JSON number 5 is
valid JSON without the access_token key, yet startup raises TypeError from
the membership test on an int instead of leaving the cache empty. -/
theorem startup_truthy_nonmapping_counterexample :
    startup (FileOutcome.json (JValue.num 5)) = Except.error PyError.typeError := rfl

/-- Claim C10 as amended: the cache is populated only from a mapping with
the access_token key (whenever startup caches a token, the file parsed to a
mapping holding it); a missing file or a mapping without the key leaves the
cache empty; and with an empty cache the manual subscribe route answers the
no-token error without attempting any subscription call, leaving the state
untouched and ignoring the would-be response entirely. -/
theorem startup_cache_invariant (fs : List (String × JValue)) (st : AppState)
    (accept : Option String) (r : HttpResponse) (fo : FileOutcome) (a : JValue)
    (hnokey : hasKey fs "access_token" = false)
    (hempty : st.tokens = none)
    (hcache : startup fo = Except.ok (some a)) :
    startup FileOutcome.missing = Except.ok none ∧
    startup (FileOutcome.json (JValue.obj fs)) = Except.ok none ∧
    (∃ gs, fo = FileOutcome.json (JValue.obj gs) ∧ dlookup gs "access_token" = some a) ∧
    subscribe st accept r =
      Except.ok (st, if acceptHasHtml accept then
        SubscribeOutcome.page (PageResponse.failurePage noTokenMsg)
      else SubscribeOutcome.noTokenJson) := by
  refine ⟨rfl, ?_, ?_, ?_⟩
  · cases fs with
    | nil => rfl
    | cons q t => simp [startup, load_token, pyTruthy, pyContains, hnokey]
  · have h := hcache
    cases fo with
    | missing => simp [startup, load_token] at h
    | invalidJson => simp [startup, load_token] at h
    | json v =>
      cases v with
      | null => simp [startup, load_token, pyTruthy] at h
      | bool b => cases b <;> simp [startup, load_token, pyTruthy, pyContains] at h
      | num n =>
        by_cases hn : n = 0
        · subst hn
          simp [startup, load_token, pyTruthy] at h
        · simp [startup, load_token, pyTruthy, pyContains, hn] at h
      | str s =>
        by_cases hsx : s = ""
        · subst hsx
          simp [startup, load_token, pyTruthy] at h
        · cases hc : strContains s "access_token" <;>
            simp [startup, load_token, pyTruthy, pyContains, pySubscript, hsx, hc] at h
      | arr xs =>
        cases xs with
        | nil => simp [startup, load_token, pyTruthy] at h
        | cons x t =>
          cases hc : (x :: t).any (fun y => match y with
              | JValue.str u => u == "access_token"
              | _ => false) <;>
            simp [startup, load_token, pyTruthy, pyContains, pySubscript, hc] at h
      | obj gs =>
        cases gs with
        | nil => simp [startup, load_token, pyTruthy] at h
        | cons q t =>
          cases hc : hasKey (q :: t) "access_token" with
          | false => simp [startup, load_token, pyTruthy, pyContains, hc] at h
          | true =>
            have hsome : (dlookup (q :: t) "access_token").isSome = true := by
              rw [← hasKey_eq_isSome]
              exact hc
            cases hd : dlookup (q :: t) "access_token" with
            | none =>
              rw [hd] at hsome
              exact absurd hsome (by simp)
            | some x =>
              simp [startup, load_token, pyTruthy, pyContains, pySubscript, hc, hd] at h
              exact ⟨q :: t, rfl, by rw [hd, h]⟩
  · unfold subscribe
    have habs : tokenAbsent st.tokens = true := by
      rw [hempty]
      rfl
    rw [habs]
    cases hhtml : acceptHasHtml accept <;> simp

/-- Witness for the amended claim C10 at a concrete mapping without the
access_token key, a concrete mapping with it, and an empty cache. -/
theorem startup_cache_invariant_witness :
    startup FileOutcome.missing = Except.ok none ∧
    startup (FileOutcome.json (JValue.obj [("refresh_token", JValue.str "r")])) =
      Except.ok none ∧
    (∃ gs, FileOutcome.json (JValue.obj [("access_token", JValue.str "tok")]) =
        FileOutcome.json (JValue.obj gs) ∧
      dlookup gs "access_token" = some (JValue.str "tok")) ∧
    subscribe ⟨emptyStore, none, none, none⟩ none
        ⟨200, "ok", "application/json", Except.ok JValue.null⟩ =
      Except.ok (⟨emptyStore, none, none, none⟩,
        if acceptHasHtml none then
          SubscribeOutcome.page (PageResponse.failurePage noTokenMsg)
        else SubscribeOutcome.noTokenJson) :=
  startup_cache_invariant [("refresh_token", JValue.str "r")]
    ⟨emptyStore, none, none, none⟩ none
    ⟨200, "ok", "application/json", Except.ok JValue.null⟩
    (FileOutcome.json (JValue.obj [("access_token", JValue.str "tok")]))
    (JValue.str "tok") rfl rfl rfl
